import Mathlib

/-!
Shallow embedding of the KDD-RAG serving core: the query classifier and
retrieval router (`src/core/adaptive_rag.py`), the retrieval backends'
error behaviour (`src/db/unstructured_db.py`, `src/db/graph_db.py`), and
the streaming chat endpoint (`src/api.py`).  External effects (the LLM
backend, Elasticsearch, Neo4j, the session store) are passed in as
explicit oracles returning `Except String` values; `Except.error` models
a raised Python exception.
-/

/-- Python substring test `pat in s` over the string's character list. -/
def strContains (s pat : String) : Bool :=
  decide (pat.data <:+: s.data)

/-- Python `str.lower()`: lower-case every character. -/
def strLower (s : String) : String :=
  String.mk (s.data.map Char.toLower)

/-- Python `str.strip()`: drop whitespace from both ends. -/
def strTrim (s : String) : String :=
  String.mk (((s.data.dropWhile Char.isWhitespace).reverse.dropWhile Char.isWhitespace).reverse)

/-- Python slicing `s[n:]` by code point. -/
def strDrop (s : String) (n : Nat) : String :=
  String.mk (s.data.drop n)

/-- Python `str.startswith(pre)`. -/
def strStartsWith (s pre : String) : Bool :=
  pre.data.isPrefixOf s.data

/-- Python `sep.join(xs)`. -/
def joinSep (sep : String) : List String → String
  | [] => ""
  | [x] => x
  | x :: rest => x ++ sep ++ joinSep sep rest

/-- Concatenation of a list of strings in order (`acc += piece` drained). -/
def concatAll (xs : List String) : String :=
  xs.foldr (fun a b => a ++ b) ""

/-- The `valid_categories` list of `AdaptiveRAG._classify`. -/
def valid_categories : List String := ["irrelevant", "relevant", "complex"]

/-- The substring scan of `AdaptiveRAG._classify` applied to the raw model
output: return the first `valid` of `valid_categories` with
`valid.lower() in category.lower()`, else the default `"relevant"`. -/
def classifyOutput (category : String) : String :=
  match valid_categories.find? (fun valid => strContains (strLower category) (strLower valid)) with
  | some valid => valid
  | none => "relevant"

/-- `AdaptiveRAG._classify`: `call_model` either returns the raw output
string or raises; the method has no handler, so a raised error propagates
unchanged to the caller. -/
def classify (modelResult : Except String String) : Except String String :=
  match modelResult with
  | Except.error e => Except.error e
  | Except.ok category => Except.ok (classifyOutput category)

/-- `ElasticsearchRetrievalManager.search`: run the similarity search,
join the page contents with newlines, and catch any exception by
returning the empty string. -/
def esSearch (asimilarity : String → Nat → Except String (List String))
    (query : String) (top_k : Nat) : String :=
  match asimilarity query top_k with
  | Except.ok docs => joinSep "\n" docs
  | Except.error _ => ""

/-- The entity loop of `GraphDatabaseManager.search`: for each extracted
entity run the traversal query, appending the joined rows plus a newline
to the accumulator; a raised query error propagates, aborting the loop.
The second component records which entities were actually queried. -/
def graphLoop (graphQuery : String → Except String (List String)) :
    List String → String → Except String String × List String
  | [], result => (Except.ok result, [])
  | entity :: rest, result =>
    match graphQuery entity with
    | Except.error e => (Except.error e, [entity])
    | Except.ok rows =>
      let next := graphLoop graphQuery rest (result ++ joinSep "\n" rows ++ "\n")
      (next.1, entity :: next.2)

/-- `GraphDatabaseManager.search`: extract entities (a `call_model` call
that may raise), then run the entity loop starting from the empty
string. -/
def graphSearch (extractedEntities : Except String (List String))
    (graphQuery : String → Except String (List String)) :
    Except String String × List String :=
  match extractedEntities with
  | Except.error e => (Except.error e, [])
  | Except.ok entities => graphLoop graphQuery entities ""

/-- The text contributed by one entity when its traversal query
succeeds: the joined rows followed by a newline. -/
def entityContribution (graphQuery : String → Except String (List String))
    (entity : String) : String :=
  match graphQuery entity with
  | Except.ok rows => joinSep "\n" rows ++ "\n"
  | Except.error _ => ""

/-- A retrieval backend invocation made by `AdaptiveRAG.retrieve`. -/
inductive BackendCall where
  | vector (query : String) (top_k : Nat)
  | graph (query : String)
deriving DecidableEq

/-- `AdaptiveRAG.retrieve`: classify, then dispatch per category; the
second component is the trace of backend invocations.  `"relevant"` runs
only the Elasticsearch search, `"complex"` runs the Elasticsearch search
and then the graph search fused as `hybrid_res + "\n" + g_res`, any other
category returns the empty string with no backend call. -/
def retrieve (classifierResult : Except String String)
    (asimilarity : String → Nat → Except String (List String))
    (extractedEntities : Except String (List String))
    (graphQuery : String → Except String (List String))
    (query : String) (k : Nat) : Except String String × List BackendCall :=
  match classify classifierResult with
  | Except.error e => (Except.error e, [])
  | Except.ok category =>
    if category = "relevant" then
      (Except.ok (esSearch asimilarity query k), [BackendCall.vector query k])
    else if category = "complex" then
      let hybrid_res := esSearch asimilarity query k
      match (graphSearch extractedEntities graphQuery).1 with
      | Except.error e => (Except.error e, [BackendCall.vector query k, BackendCall.graph query])
      | Except.ok g_res =>
        (Except.ok (hybrid_res ++ "\n" ++ g_res),
         [BackendCall.vector query k, BackendCall.graph query])
    else
      (Except.ok "", [])

instance {ε α : Type} [DecidableEq ε] [DecidableEq α] : DecidableEq (Except ε α) := fun x y =>
  match x, y with
  | Except.ok a, Except.ok b => decidable_of_iff (a = b) (by simp)
  | Except.error a, Except.error b => decidable_of_iff (a = b) (by simp)
  | Except.ok _, Except.error _ => isFalse (fun h => Except.noConfusion h)
  | Except.error _, Except.ok _ => isFalse (fun h => Except.noConfusion h)

/-- One message of a chat history (a turn: role plus content). -/
structure Msg where
  role : String
  content : String
deriving DecidableEq

/-- The fixed `GENERATION_SYSTEM_PROMPT` of `src/helpers/prompts.py`. -/
def GENERATION_SYSTEM_PROMPT : String :=
  "You are a helpful AI assistant. Use the given context to answer the user's question."

/-- Observable action of the `chat` endpoint: a session-store read, the
call into the selected RAG instance, one streamed token event, the final
empty-token sentinel event, and a session-store write. -/
inductive ChatEvent where
  | sessionLoad (session_id : String)
  | ragInvoke (query : String)
  | emit (token : String)
  | emitSentinel
  | storeWrite (session_id : String) (msgs : List Msg)
deriving DecidableEq

/-- Whether a chat event is a write to the session store. -/
def ChatEvent.isStoreWrite : ChatEvent → Bool
  | ChatEvent.storeWrite _ _ => true
  | _ => false

/-- Whether a chat event is a streaming event sent to the client. -/
def ChatEvent.isStream : ChatEvent → Bool
  | ChatEvent.emit _ => true
  | ChatEvent.emitSentinel => true
  | _ => false

/-- Error outcome of the `chat` endpoint: the HTTP 400 raised for an
unknown RAG type, or a backend exception escaping the handler. -/
inductive ChatError where
  | http400 (detail : String)
  | backend (e : String)
deriving DecidableEq

/-- Result of one request: terminal status, the registry key of the
selected handler (none when rejected), and the ordered event trace. -/
structure ChatResult where
  status : Except ChatError Unit
  handler : Option String
  events : List ChatEvent
deriving DecidableEq

/-- The keys of `RAG_REGISTRY` in `src/api.py`. -/
def RAG_REGISTRY_keys : List String := ["fusion", "graph", "adaptive"]

/-- The token loop of `generate_response` in `src/api.py`: skip falsy
lines and lines not starting with `data:`, strip the `data:` prefix,
stop at the `[DONE]` sentinel, otherwise extract the delta content
(`parseContent` stands for the JSON field access) and both emit it and
append it to `final_full_response`.  Returns the emitted tokens in order
and the accumulated response. -/
def drainStream (parseContent : String → String) : List String → List String × String
  | [] => ([], "")
  | line :: rest =>
    if line = "" then drainStream parseContent rest
    else if strStartsWith line "data:" then
      let json_str := strTrim (strDrop line 5)
      if json_str = "[DONE]" then ([], "")
      else
        let content := parseContent json_str
        let next := drainStream parseContent rest
        (content :: next.1, content ++ next.2)
    else drainStream parseContent rest

/-- History as loaded in `chat`: empty for a fresh session (no id),
otherwise whatever `get_chat_history` returns. -/
def loadMessages (session_id : Option String) (storedHistory : String → List Msg) : List Msg :=
  match session_id with
  | none => []
  | some s => storedHistory s

/-- The lazy system-turn seeding of `chat`: an empty history becomes the
single fixed system turn. -/
def seedMessages (messages : List Msg) : List Msg :=
  if messages = [] then [Msg.mk "system" GENERATION_SYSTEM_PROMPT] else messages

/-- The session key used for the request: the given id, or the freshly
minted one when absent. -/
def sessionKey (session_id : Option String) (freshId : String) : String :=
  match session_id with
  | none => freshId
  | some s => s

/-- The session-store reads performed by `chat` before streaming. -/
def loadEvents (session_id : Option String) : List ChatEvent :=
  match session_id with
  | none => []
  | some s => [ChatEvent.sessionLoad s]

/-- The `chat` endpoint of `src/api.py` when the client drains the
stream to exhaustion.  The RAG type is lower-cased and looked up in the
registry, rejecting unknown names with HTTP 400 before any session load
or backend call; then the history is loaded and seeded, the RAG instance
is invoked (`ragResult` is the stream's line list, or the exception
raised when the generation backend is unreachable, in which case nothing
is streamed or stored); on success the tokens are emitted, the sentinel
is sent, and the history plus the user turn (the original question) and
the accumulated assistant turn is written to the store once. -/
def chatEndpoint (question rag_type : String) (session_id : Option String)
    (freshId : String) (storedHistory : String → List Msg)
    (ragResult : Except String (List String)) (parseContent : String → String) : ChatResult :=
  let rt := strLower rag_type
  if RAG_REGISTRY_keys.contains rt then
    let sid := sessionKey session_id freshId
    let messages := seedMessages (loadMessages session_id storedHistory)
    match ragResult with
    | Except.error e =>
      { status := Except.error (ChatError.backend e), handler := some rt,
        events := loadEvents session_id ++ [ChatEvent.ragInvoke question] }
    | Except.ok lines =>
      let drained := drainStream parseContent lines
      let committed := messages ++ [Msg.mk "user" question, Msg.mk "assistant" drained.2]
      { status := Except.ok (), handler := some rt,
        events := loadEvents session_id ++ [ChatEvent.ragInvoke question]
          ++ drained.1.map ChatEvent.emit
          ++ [ChatEvent.emitSentinel, ChatEvent.storeWrite sid committed] }
  else
    { status := Except.error (ChatError.http400 ("Invalid RAG type: " ++ rt)),
      handler := none, events := [] }

/-- The `chat` endpoint when the client disconnects after consuming only
`consumed` yields of the response generator: closing the async generator
raises GeneratorExit at the suspended yield, so any code after that
yield — in particular the assistant append and the history store after
the loop — never runs.  When the client consumes every yield the run is
the normal `chatEndpoint` run. -/
def chatEndpointAborted (consumed : Nat) (question rag_type : String)
    (session_id : Option String) (freshId : String) (storedHistory : String → List Msg)
    (ragResult : Except String (List String)) (parseContent : String → String) : ChatResult :=
  let rt := strLower rag_type
  if RAG_REGISTRY_keys.contains rt then
    match ragResult with
    | Except.error e =>
      { status := Except.error (ChatError.backend e), handler := some rt,
        events := loadEvents session_id ++ [ChatEvent.ragInvoke question] }
    | Except.ok lines =>
      let drained := drainStream parseContent lines
      let yields := drained.1.map ChatEvent.emit ++ [ChatEvent.emitSentinel]
      if consumed < yields.length then
        { status := Except.ok (), handler := some rt,
          events := loadEvents session_id ++ [ChatEvent.ragInvoke question]
            ++ yields.take consumed }
      else
        chatEndpoint question rag_type session_id freshId storedHistory ragResult parseContent
  else
    { status := Except.error (ChatError.http400 ("Invalid RAG type: " ++ rt)),
      handler := none, events := [] }

/-! Helper lemmas. -/

theorem str_append_data (a b : String) : (a ++ b).data = a.data ++ b.data := by
  cases a; cases b; rfl

theorem str_append_empty (s : String) : s ++ "" = s := by
  cases s with
  | mk l => show String.mk (l ++ []) = String.mk l
            rw [List.append_nil]

theorem str_append_assoc (a b c : String) : a ++ b ++ c = a ++ (b ++ c) := by
  cases a with
  | mk la =>
    cases b with
    | mk lb =>
      cases c with
      | mk lc => show String.mk (la ++ lb ++ lc) = String.mk (la ++ (lb ++ lc))
                 rw [List.append_assoc]

theorem concatAll_nil : concatAll [] = "" := rfl

theorem concatAll_cons (x : String) (xs : List String) :
    concatAll (x :: xs) = x ++ concatAll xs := rfl

theorem strContains_relevant_of_irrelevant (t : String)
    (h : strContains t "irrelevant" = true) : strContains t "relevant" = true := by
  have h1 : "irrelevant".data <:+: t.data := of_decide_eq_true h
  have h2 : "relevant".data <:+: "irrelevant".data := by decide
  exact decide_eq_true (h2.trans h1)

theorem strLower_irrelevant : strLower "irrelevant" = "irrelevant" := by decide

theorem strLower_relevant : strLower "relevant" = "relevant" := by decide

theorem strLower_complex : strLower "complex" = "complex" := by decide

theorem classifyOutput_eq (raw : String) :
    classifyOutput raw =
      (if strContains (strLower raw) "irrelevant" then "irrelevant"
       else if strContains (strLower raw) "relevant" then "relevant"
       else if strContains (strLower raw) "complex" then "complex"
       else "relevant") := by
  cases h1 : strContains (strLower raw) "irrelevant" <;>
  cases h2 : strContains (strLower raw) "relevant" <;>
  cases h3 : strContains (strLower raw) "complex" <;>
  simp [classifyOutput, valid_categories, List.find?, strLower_irrelevant, strLower_relevant,
    strLower_complex, h1, h2, h3]

/-! Claim C2. -/

/-- C2 counterexample: on the spec's own example output, which contains
both "relevant" and "complex", `_classify` returns "relevant" (the
earlier entry of the check order), not "complex" as the claim states. -/
theorem classify_tiebreak_counterexample :
    strContains (strLower "This is Relevant but also Complex") "complex" = true ∧
    strContains (strLower "This is Relevant but also Complex") "relevant" = true ∧
    classifyOutput "This is Relevant but also Complex" = "relevant" ∧
    classifyOutput "This is Relevant but also Complex" ≠ "complex" := by
  decide

/-- C2 (amended): under the check order irrelevant, relevant, complex
with the first substring match returned, an output containing "complex"
(any case) classifies as "complex" exactly when it does not also contain
"relevant" (any case); since "relevant" is a substring of "irrelevant",
an output containing "relevant" resolves to the earlier matching
category instead. -/
theorem classify_complex_priority (raw : String)
    (hc : strContains (strLower raw) "complex" = true) :
    (classifyOutput raw = "complex" ↔ strContains (strLower raw) "relevant" = false) := by
  rw [classifyOutput_eq]
  constructor
  · intro h
    by_contra hrel
    rw [Bool.not_eq_false] at hrel
    cases hirr : strContains (strLower raw) "irrelevant" <;> simp [hirr, hrel] at h
  · intro hrel
    have hirr : strContains (strLower raw) "irrelevant" = false := by
      cases hirr : strContains (strLower raw) "irrelevant"
      · rfl
      · rw [strContains_relevant_of_irrelevant _ hirr] at hrel
        exact absurd hrel (by simp)
    simp [hirr, hrel, hc]

/-- C2 witness: an output containing "complex" but not "relevant" does
classify as "complex". -/
theorem classify_complex_priority_witness :
    strContains (strLower "Quite Complex") "complex" = true ∧
    classifyOutput "Quite Complex" = "complex" := by
  refine ⟨by decide, ?_⟩
  exact (classify_complex_priority "Quite Complex" (by decide)).mpr (by decide)

/-! Claim C4. -/

/-- C4 counterexample: `_classify` has no exception handler, so a raised
backend error propagates to the caller instead of being treated as an
unparseable result defaulting to "relevant". -/
theorem classify_error_propagates :
    classify (Except.error "connection refused") = Except.error "connection refused" ∧
    classify (Except.error "connection refused") ≠ Except.ok "relevant" := by
  decide

/-- C4 (amended): whenever the classification call returns an output
string, `_classify` returns a member of the closed set irrelevant,
relevant, complex, and if no category name occurs in the output the
result is "relevant"; but a backend error raised by the call propagates
unchanged to the caller. -/
theorem classify_closed_set :
    (∀ s, classify (Except.ok s) = Except.ok (classifyOutput s) ∧
        classifyOutput s ∈ valid_categories ∧
        (valid_categories.all (fun v => !(strContains (strLower s) (strLower v))) = true →
          classifyOutput s = "relevant")) ∧
    (∀ e, classify (Except.error e) = Except.error e) := by
  constructor
  · intro s
    refine ⟨rfl, ?_, ?_⟩
    · unfold classifyOutput
      cases hf : valid_categories.find?
          (fun valid => strContains (strLower s) (strLower valid)) with
      | none => simp [valid_categories]
      | some v => simpa using List.mem_of_find?_eq_some hf
    · intro hall
      rw [List.all_eq_true] at hall
      have h1 := hall "irrelevant" (by simp [valid_categories])
      have h2 := hall "relevant" (by simp [valid_categories])
      have h3 := hall "complex" (by simp [valid_categories])
      rw [strLower_irrelevant] at h1
      rw [strLower_relevant] at h2
      rw [strLower_complex] at h3
      rw [Bool.not_eq_true'] at h1 h2 h3
      simp [classifyOutput_eq, h1, h2, h3]
  · intro e
    rfl

/-- C4 witness: an unparseable output defaults to "relevant", and a
concrete backend error propagates. -/
theorem classify_closed_set_witness :
    classify (Except.ok "gibberish") = Except.ok "relevant" ∧
    classify (Except.error "boom") = Except.error "boom" := by
  constructor
  · have h0 := (classify_closed_set.1 "gibberish").1
    have h := (classify_closed_set.1 "gibberish").2.2 (by decide)
    rw [h0, h]
  · exact classify_closed_set.2 "boom"

/-! Claim C1. -/

/-- C1: `AdaptiveRAG.retrieve` follows the routing policy table: class
"irrelevant" invokes no backend and returns the empty context, class
"relevant" invokes only the vector backend with `top_k = k` and returns
its raw result (never the graph backend), and class "complex" invokes
the vector backend and then the graph backend. -/
theorem route_policy (asimilarity : String → Nat → Except String (List String))
    (extractedEntities : Except String (List String))
    (graphQuery : String → Except String (List String))
    (query : String) (k : Nat) (raw : String) :
    (classifyOutput raw = "irrelevant" →
      retrieve (Except.ok raw) asimilarity extractedEntities graphQuery query k
        = (Except.ok "", [])) ∧
    (classifyOutput raw = "relevant" →
      retrieve (Except.ok raw) asimilarity extractedEntities graphQuery query k
        = (Except.ok (esSearch asimilarity query k), [BackendCall.vector query k])) ∧
    (classifyOutput raw = "complex" →
      (retrieve (Except.ok raw) asimilarity extractedEntities graphQuery query k).2
        = [BackendCall.vector query k, BackendCall.graph query]) := by
  refine ⟨?_, ?_, ?_⟩ <;> intro hcat
  · simp [retrieve, classify, hcat]
  · simp [retrieve, classify, hcat]
  · rcases hg : (graphSearch extractedEntities graphQuery).1 with e | g <;>
      simp [retrieve, classify, hcat, hg]

/-- C1 witness: the three routing classes at concrete oracles. -/
theorem route_policy_witness :
    retrieve (Except.ok "Irrelevant") (fun _ _ => Except.ok ["doc"]) (Except.ok [])
        (fun _ => Except.ok []) "q" 5 = (Except.ok "", []) ∧
    retrieve (Except.ok "Relevant") (fun _ _ => Except.ok ["doc"]) (Except.ok [])
        (fun _ => Except.ok []) "q" 5 = (Except.ok "doc", [BackendCall.vector "q" 5]) ∧
    (retrieve (Except.ok "Complex") (fun _ _ => Except.ok ["doc"]) (Except.ok [])
        (fun _ => Except.ok []) "q" 5).2
      = [BackendCall.vector "q" 5, BackendCall.graph "q"] := by
  refine ⟨?_, ?_, ?_⟩
  · exact (route_policy (fun _ _ => Except.ok ["doc"]) (Except.ok [])
      (fun _ => Except.ok []) "q" 5 "Irrelevant").1 (by decide)
  · exact ((route_policy (fun _ _ => Except.ok ["doc"]) (Except.ok [])
      (fun _ => Except.ok []) "q" 5 "Relevant").2.1 (by decide)).trans (by decide)
  · exact (route_policy (fun _ _ => Except.ok ["doc"]) (Except.ok [])
      (fun _ => Except.ok []) "q" 5 "Complex").2.2 (by decide)

/-! Claim C8. -/

/-- C8: for the "complex" routing class, whenever the graph search
returns a result the fused evidence context is exactly the vector
result, one newline, then the graph result, for all values of the two
results. -/
theorem complex_fusion (asimilarity : String → Nat → Except String (List String))
    (extractedEntities : Except String (List String))
    (graphQuery : String → Except String (List String))
    (query : String) (k : Nat) (raw g_res : String)
    (hcat : classifyOutput raw = "complex")
    (hg : (graphSearch extractedEntities graphQuery).1 = Except.ok g_res) :
    (retrieve (Except.ok raw) asimilarity extractedEntities graphQuery query k).1
      = Except.ok (esSearch asimilarity query k ++ "\n" ++ g_res) := by
  simp [retrieve, classify, hcat, hg]

/-- C8 witness: both results empty fuse to a single newline. -/
theorem complex_fusion_witness :
    (retrieve (Except.ok "Complex") (fun _ _ => Except.ok []) (Except.ok [])
        (fun _ => Except.ok []) "q" 5).1 = Except.ok "\n" := by
  have h := complex_fusion (fun _ _ => Except.ok []) (Except.ok [])
    (fun _ => Except.ok []) "q" 5 "Complex" "" (by decide) rfl
  exact h.trans (by decide)

/-! Claim C5. -/

/-- C5 counterexample: a graph-backend error raised during the retrieve
step of class "complex" propagates out of `retrieve` as a request-level
failure; the evidence context does not resolve to the empty string. -/
theorem graph_failure_fails_request :
    (retrieve (Except.ok "Complex") (fun _ _ => Except.ok []) (Except.ok ["entityA"])
        (fun _ => Except.error "graph backend down") "q" 5).1
      = Except.error "graph backend down" ∧
    (retrieve (Except.ok "Complex") (fun _ _ => Except.ok []) (Except.ok ["entityA"])
        (fun _ => Except.error "graph backend down") "q" 5).1
      ≠ Except.ok "" := by
  decide

/-- C5 (amended): when the unstructured (vector) backend's search raises,
`ElasticsearchRetrievalManager.search` recovers locally and contributes
the empty string; for class "relevant" the whole context is then empty
and retrieval succeeds, and for class "complex" (with the graph search
succeeding) generation still proceeds with the empty vector contribution
fused in front.  Graph-backend errors, by contrast, propagate. -/
theorem vector_failure_recovered (errf : String → Nat → String)
    (extractedEntities : Except String (List String))
    (graphQuery : String → Except String (List String))
    (query : String) (k : Nat) (raw : String) :
    esSearch (fun a b => Except.error (errf a b)) query k = "" ∧
    (classifyOutput raw = "relevant" →
      retrieve (Except.ok raw) (fun a b => Except.error (errf a b)) extractedEntities
          graphQuery query k
        = (Except.ok "", [BackendCall.vector query k])) ∧
    (∀ g_res, classifyOutput raw = "complex" →
      (graphSearch extractedEntities graphQuery).1 = Except.ok g_res →
      (retrieve (Except.ok raw) (fun a b => Except.error (errf a b)) extractedEntities
          graphQuery query k).1
        = Except.ok ("" ++ "\n" ++ g_res)) := by
  refine ⟨rfl, ?_, ?_⟩
  · intro hcat
    simp [retrieve, classify, hcat, esSearch]
  · intro g_res hcat hg
    simp [retrieve, classify, hcat, hg, esSearch]

/-- C5 witness: a failing vector backend at concrete inputs. -/
theorem vector_failure_recovered_witness :
    retrieve (Except.ok "Relevant") (fun _ _ => Except.error "es down") (Except.ok [])
        (fun _ => Except.ok []) "q" 5 = (Except.ok "", [BackendCall.vector "q" 5]) ∧
    (retrieve (Except.ok "Complex") (fun _ _ => Except.error "es down") (Except.ok [])
        (fun _ => Except.ok []) "q" 5).1 = Except.ok "\n" := by
  constructor
  · exact (vector_failure_recovered (fun _ _ => "es down") (Except.ok [])
      (fun _ => Except.ok []) "q" 5 "Relevant").2.1 (by decide)
  · have h := (vector_failure_recovered (fun _ _ => "es down") (Except.ok [])
      (fun _ => Except.ok []) "q" 5 "Complex").2.2 "" (by decide) rfl
    exact h.trans (by decide)

/-! Claim C6. -/

/-- C6 counterexample: a backend failure for the first entity aborts the
loop — the second entity is never queried and the error is surfaced to
the router — and a nonempty entity list whose queries all return empty
results contributes a newline per entity, not the empty string. -/
theorem graph_entity_abort_counterexample :
    graphSearch (Except.ok ["entityA", "entityB"])
        (fun ent => if ent = "entityA" then Except.error "neo4j down" else Except.ok ["row"])
      = (Except.error "neo4j down", ["entityA"]) ∧
    graphSearch (Except.ok ["entityA"]) (fun _ => Except.ok [])
      = (Except.ok "\n", ["entityA"]) ∧
    ("\n" : String) ≠ "" := by
  decide

theorem graphLoop_ok (graphQuery : String → Except String (List String)) :
    ∀ (entities : List String) (acc : String),
      (∀ ent ∈ entities, ∃ rows, graphQuery ent = Except.ok rows) →
      graphLoop graphQuery entities acc
        = (Except.ok (acc ++ concatAll (entities.map (entityContribution graphQuery))),
           entities) := by
  intro entities
  induction entities with
  | nil =>
    intro acc _
    simp [graphLoop, concatAll_nil, str_append_empty]
  | cons ent rest ih =>
    intro acc h
    obtain ⟨rows, hrows⟩ := h ent (List.mem_cons_self ent rest)
    have hrest := fun e he => h e (List.mem_cons_of_mem ent he)
    simp only [graphLoop, hrows, ih _ hrest, List.map_cons, concatAll_cons]
    have hcontrib : entityContribution graphQuery ent = joinSep "\n" rows ++ "\n" := by
      rw [entityContribution, hrows]
    rw [hcontrib]
    simp only [str_append_assoc]

/-- C6 (amended): in graph retrieval, a backend failure while processing
one entity aborts the traversal queries for the remaining entities and
the error propagates to the router; when every entity's query succeeds,
partial results accumulate across entities in extraction order, each
entity contributing its joined rows followed by a newline; an empty
extracted-entity list yields the empty string, while entities whose
queries return no rows contribute a bare newline each rather than
nothing. -/
theorem graph_loop_accumulation :
    (∀ (graphQuery : String → Except String (List String)) (entity : String)
        (rest : List String) (acc e : String), graphQuery entity = Except.error e →
      graphLoop graphQuery (entity :: rest) acc = (Except.error e, [entity])) ∧
    (∀ (graphQuery : String → Except String (List String)) (entities : List String),
      (∀ ent ∈ entities, ∃ rows, graphQuery ent = Except.ok rows) →
      (graphSearch (Except.ok entities) graphQuery
        = (Except.ok (concatAll (entities.map (entityContribution graphQuery))), entities))) ∧
    (∀ graphQuery, graphSearch (Except.ok []) graphQuery = (Except.ok "", [])) := by
  refine ⟨?_, ?_, ?_⟩
  · intro graphQuery entity rest acc e he
    simp [graphLoop, he]
  · intro graphQuery entities h
    have hl := graphLoop_ok graphQuery entities "" h
    rw [graphSearch, hl]
    have : ("" : String) ++ concatAll (entities.map (entityContribution graphQuery))
        = concatAll (entities.map (entityContribution graphQuery)) := by
      cases hc : concatAll (entities.map (entityContribution graphQuery))
      show String.mk ([] ++ _) = _
      rw [List.nil_append]
    rw [this]
  · intro graphQuery
    rfl

/-- C6 witness: abort on a failing entity, and accumulation across two
succeeding entities in extraction order. -/
theorem graph_loop_accumulation_witness :
    graphLoop (fun _ => Except.error "down") ["entityA", "entityB"] ""
      = (Except.error "down", ["entityA"]) ∧
    graphSearch (Except.ok ["entityA", "entityB"]) (fun _ => Except.ok ["r1", "r2"])
      = (Except.ok "r1\nr2\nr1\nr2\n", ["entityA", "entityB"]) ∧
    graphSearch (Except.ok []) (fun _ => Except.ok []) = (Except.ok "", []) := by
  refine ⟨graph_loop_accumulation.1 (fun _ => Except.error "down") "entityA" ["entityB"] "" "down" rfl,
    ?_, graph_loop_accumulation.2.2 (fun _ => Except.ok [])⟩
  have h := graph_loop_accumulation.2.1 (fun _ => Except.ok ["r1", "r2"]) ["entityA", "entityB"]
    (fun ent _ => ⟨["r1", "r2"], rfl⟩)
  exact h.trans (by decide)

/-! Chat endpoint lemmas and claims. -/

theorem drainStream_snd (parseContent : String → String) (lines : List String) :
    (drainStream parseContent lines).2 = concatAll (drainStream parseContent lines).1 := by
  induction lines with
  | nil => rfl
  | cons line rest ih =>
    by_cases h1 : line = ""
    · simp only [drainStream, h1, if_true]
      exact ih
    · by_cases h2 : strStartsWith line "data:" = true
      · by_cases h3 : strTrim (strDrop line 5) = "[DONE]"
        · simp [drainStream, h1, h2, h3, concatAll_nil]
        · simp only [drainStream, h1, h2, h3, if_false, if_true, ite_false, ite_true]
          simp [concatAll_cons, ih]
      · simp only [drainStream, h1, ite_false]
        rw [if_neg h2]
        exact ih

/-! Claim C3. -/

/-- C3: when the stream runs to normal exhaustion, the history written
to the session store is the loaded (and seeded) history followed by
exactly two new entries — the user turn carrying the original question
and the assistant turn carrying the concatenation of all emitted tokens
in emission order — and this single store write is the last action,
after every token event and the sentinel. -/
theorem history_roundtrip (question rag_type : String) (session_id : Option String)
    (freshId : String) (storedHistory : String → List Msg) (parseContent : String → String)
    (lines : List String)
    (hvalid : RAG_REGISTRY_keys.contains (strLower rag_type) = true) :
    chatEndpoint question rag_type session_id freshId storedHistory (Except.ok lines) parseContent
      = { status := Except.ok (), handler := some (strLower rag_type),
          events := loadEvents session_id ++ [ChatEvent.ragInvoke question]
            ++ (drainStream parseContent lines).1.map ChatEvent.emit
            ++ [ChatEvent.emitSentinel,
                ChatEvent.storeWrite (sessionKey session_id freshId)
                  (seedMessages (loadMessages session_id storedHistory)
                    ++ [Msg.mk "user" question,
                        Msg.mk "assistant" (concatAll (drainStream parseContent lines).1)])] } := by
  have hmem : strLower rag_type ∈ RAG_REGISTRY_keys := by simpa using hvalid
  simp [chatEndpoint, hmem, drainStream_snd]

/-- C3 witness: the spec's end-to-end scenario shape on a fresh session
with three tokens. -/
theorem history_roundtrip_witness :
    chatEndpoint "What is the return policy?" "adaptive" none "sid-1" (fun _ => [])
        (Except.ok ["data: The", "data: return", "data: policy", "data: [DONE]"]) (fun s => s)
      = { status := Except.ok (), handler := some "adaptive",
          events := [ChatEvent.ragInvoke "What is the return policy?",
                     ChatEvent.emit "The", ChatEvent.emit "return", ChatEvent.emit "policy",
                     ChatEvent.emitSentinel,
                     ChatEvent.storeWrite "sid-1"
                       [Msg.mk "system" GENERATION_SYSTEM_PROMPT,
                        Msg.mk "user" "What is the return policy?",
                        Msg.mk "assistant" "Thereturnpolicy"]] } := by
  have h := history_roundtrip "What is the return policy?" "adaptive" none "sid-1" (fun _ => [])
    (fun s => s) ["data: The", "data: return", "data: policy", "data: [DONE]"] (by decide)
  exact h.trans (by decide)

/-! Claim C7. -/

/-- C7: when the generation backend is unreachable the request fails
with the backend error before any streaming event is emitted, and no
session-store write happens, so the persisted history is unchanged. -/
theorem generation_unreachable_no_commit (question rag_type : String)
    (session_id : Option String) (freshId : String) (storedHistory : String → List Msg)
    (parseContent : String → String) (e : String)
    (hvalid : RAG_REGISTRY_keys.contains (strLower rag_type) = true) :
    (chatEndpoint question rag_type session_id freshId storedHistory
        (Except.error e) parseContent).status = Except.error (ChatError.backend e) ∧
    (chatEndpoint question rag_type session_id freshId storedHistory
        (Except.error e) parseContent).events.all
      (fun ev => !(ev.isStream || ev.isStoreWrite)) = true := by
  have hmem : strLower rag_type ∈ RAG_REGISTRY_keys := by simpa using hvalid
  cases session_id <;>
    simp [chatEndpoint, hmem, loadEvents, ChatEvent.isStream, ChatEvent.isStoreWrite]

/-- C7 witness: an unreachable generation backend at concrete inputs. -/
theorem generation_unreachable_no_commit_witness :
    (chatEndpoint "q" "fusion" (some "s") "f" (fun _ => [])
        (Except.error "vllm unreachable") (fun s => s)).status
      = Except.error (ChatError.backend "vllm unreachable") ∧
    (chatEndpoint "q" "fusion" (some "s") "f" (fun _ => [])
        (Except.error "vllm unreachable") (fun s => s)).events.all
      (fun ev => !(ev.isStream || ev.isStoreWrite)) = true :=
  generation_unreachable_no_commit "q" "fusion" (some "s") "f" (fun _ => [])
    (fun s => s) "vllm unreachable" (by decide)

/-! Claim C9. -/

/-- C9 counterexample: the client disconnects after consuming one token
event; the token "Hello" was emitted and accumulated, yet the aborted
run ends with no store write at all — the accumulated text is dropped,
not committed. -/
theorem aborted_stream_drops_text :
    chatEndpointAborted 1 "q2" "adaptive" (some "s2") "f" (fun _ => [])
        (Except.ok ["data: Hello", "data: world", "data: [DONE]"]) (fun s => s)
      = { status := Except.ok (), handler := some "adaptive",
          events := [ChatEvent.sessionLoad "s2", ChatEvent.ragInvoke "q2",
                     ChatEvent.emit "Hello"] } ∧
    (drainStream (fun s => s) ["data: Hello", "data: world", "data: [DONE]"]).1
      = ["Hello", "world"] := by
  decide

theorem yields_take_no_store (tokens : List String) (n : Nat) :
    ((tokens.map ChatEvent.emit ++ [ChatEvent.emitSentinel]).take n).all
      (fun ev => !ev.isStoreWrite) = true := by
  rw [List.all_eq_true]
  intro ev hev
  have hmem := List.take_subset n _ hev
  rcases List.mem_append.mp hmem with hm | hm
  · rcases List.mem_map.mp hm with ⟨t, _, rfl⟩
    rfl
  · rcases List.mem_singleton.mp hm with rfl
    rfl

/-- C9 (amended): when the stream is aborted before the end-of-stream
sentinel is observed, the generator is closed at a suspended yield and
the post-loop append and store never run: no partial assistant turn is
committed as complete, and the text accumulated before the abort is not
committed either — no store write occurs at all. -/
theorem aborted_stream_no_commit (consumed : Nat) (question rag_type : String)
    (session_id : Option String) (freshId : String) (storedHistory : String → List Msg)
    (parseContent : String → String) (lines : List String)
    (habort : consumed ≤ (drainStream parseContent lines).1.length) :
    (chatEndpointAborted consumed question rag_type session_id freshId storedHistory
        (Except.ok lines) parseContent).events.all (fun ev => !ev.isStoreWrite) = true := by
  by_cases hreg : RAG_REGISTRY_keys.contains (strLower rag_type) = true
  · have hlt : consumed <
        ((drainStream parseContent lines).1.map ChatEvent.emit
          ++ [ChatEvent.emitSentinel]).length := by
      rw [List.length_append, List.length_map]
      simp only [List.length_singleton]
      omega
    simp only [chatEndpointAborted, hreg, if_true, hlt]
    rw [List.all_append, List.all_append]
    refine (Bool.and_eq_true _ _).mpr ⟨(Bool.and_eq_true _ _).mpr ⟨?_, rfl⟩, ?_⟩
    · cases session_id <;> rfl
    · exact yields_take_no_store _ _
  · have hnmem : ¬ strLower rag_type ∈ RAG_REGISTRY_keys := by
      intro hm
      exact hreg (by simpa using hm)
    simp [chatEndpointAborted, hnmem]

/-- C9 witness: an abort before the sentinel at concrete inputs commits
nothing. -/
theorem aborted_stream_no_commit_witness :
    (chatEndpointAborted 1 "q" "adaptive" (some "s1") "f" (fun _ => [])
        (Except.ok ["data: Hello", "data: world", "data: [DONE]"]) (fun s => s)).events.all
      (fun ev => !ev.isStoreWrite) = true :=
  aborted_stream_no_commit 1 "q" "adaptive" (some "s1") "f" (fun _ => [])
    (fun s => s) ["data: Hello", "data: world", "data: [DONE]"] (by decide)

/-! Claim C10. -/

/-- C10: the inbound strategy name is lower-cased and looked up in the
registry, so any name differing from a registered key only in letter
case selects that handler, and every other name is rejected with an
HTTP 400 client error before any session load, backend call, stream
event or store write. -/
theorem strategy_dispatch (question rag_type : String) (session_id : Option String)
    (freshId : String) (storedHistory : String → List Msg)
    (ragResult : Except String (List String)) (parseContent : String → String) :
    (RAG_REGISTRY_keys.contains (strLower rag_type) = true →
      (chatEndpoint question rag_type session_id freshId storedHistory
          ragResult parseContent).handler = some (strLower rag_type)) ∧
    (RAG_REGISTRY_keys.contains (strLower rag_type) = false →
      chatEndpoint question rag_type session_id freshId storedHistory ragResult parseContent
        = { status := Except.error
              (ChatError.http400 ("Invalid RAG type: " ++ strLower rag_type)),
            handler := none, events := [] }) := by
  constructor
  · intro h
    have hmem : strLower rag_type ∈ RAG_REGISTRY_keys := by simpa using h
    cases ragResult <;> simp [chatEndpoint, hmem]
  · intro h
    have hnmem : ¬ strLower rag_type ∈ RAG_REGISTRY_keys := by simpa using h
    simp [chatEndpoint, hnmem]

/-- C10 witness: the schema default "Fusion" selects the "fusion"
handler, and an unregistered name is rejected with an empty trace. -/
theorem strategy_dispatch_witness :
    (chatEndpoint "q" "Fusion" none "f" (fun _ => []) (Except.ok [])
        (fun s => s)).handler = some "fusion" ∧
    chatEndpoint "q" "vector" none "f" (fun _ => []) (Except.ok []) (fun s => s)
      = { status := Except.error (ChatError.http400 "Invalid RAG type: vector"),
          handler := none, events := [] } := by
  constructor
  · have h := (strategy_dispatch "q" "Fusion" none "f" (fun _ => []) (Except.ok [])
      (fun s => s)).1 (by decide)
    exact h.trans (by decide)
  · have h := (strategy_dispatch "q" "vector" none "f" (fun _ => []) (Except.ok [])
      (fun s => s)).2 (by decide)
    exact h.trans (by decide)
